import Mathlib

/-!
Verification development for the `waitexit` program: a terminal countdown
utility that waits for N seconds or for any keyboard input, then exits with a
configurable status code.

The definitions below are a shallow embedding of the C sources (the
full-featured variant of `waitexit.c`, the one providing the
`-m`, `-e`, `-f`, `-z`, `-s`, `-h` options).  Character strings are modelled
as `List Char`; the `int` values of the program are modelled as `Int` or, when
the C code guarantees non-negativity, as `Nat`.  Keyboard input is modelled as
a function `input : Nat → Bool` giving, for each 1-indexed tick of the
countdown loop, whether `select` reports readable data on standard input
during that tick's one-second wait.  Writes to the standard output and
standard error streams are accumulated into explicit `List Char` fields of
the results.
-/

namespace Waitexit

/-- Decimal digit character, as produced by the `%d`/`%i` conversions of
`sprintf`/`fprintf` in the C sources (only values 0..9 ever occur). -/
def digitChar (n : Nat) : Char :=
  if n = 0 then '0'
  else if n = 1 then '1'
  else if n = 2 then '2'
  else if n = 3 then '3'
  else if n = 4 then '4'
  else if n = 5 then '5'
  else if n = 6 then '6'
  else if n = 7 then '7'
  else if n = 8 then '8'
  else '9'

/-- Fuel-driven core of decimal formatting: emits the decimal digits of `n`
(most significant first) in front of `acc`.  The fuel is only a termination
device; `natDigits` supplies enough of it. -/
def natDigitsCore : Nat → Nat → List Char → List Char
  | 0, _, acc => acc
  | fuel + 1, n, acc =>
    if n < 10 then digitChar n :: acc
    else natDigitsCore fuel (n / 10) (digitChar (n % 10) :: acc)

/-- Decimal digits of a natural number, most significant first. -/
def natDigits (n : Nat) : List Char :=
  natDigitsCore (n + 1) n []

/-- Decimal rendering of a C `int` as done by `sprintf(dst, "%d", v)`:
an optional minus sign followed by the decimal digits of the magnitude. -/
def sprintf_d (v : Int) : List Char :=
  if v < 0 then '-' :: natDigits v.natAbs else natDigits v.toNat

/-- Embedding of `prepare_message` (the message renderer): scans the template
left to right; carriage-return and line-feed characters are skipped; a `'%'`
immediately followed by `'S'` is replaced by the decimal rendering of
`seconds_left` (the C `switch` falls through from the `'%'` case to the
default case when the next character is not `'S'`, so such a percent is
emitted literally); every other character is copied unchanged. -/
def prepare_message : List Char → Int → List Char
  | [], _ => []
  | '\n' :: rest, s => prepare_message rest s
  | '\r' :: rest, s => prepare_message rest s
  | '%' :: 'S' :: rest, s => sprintf_d s ++ prepare_message rest s
  | c :: rest, s => c :: prepare_message rest s

example : prepare_message ['%', 'S'] 42 = ['4', '2'] := by decide

example : prepare_message ['x', '%', 'S', 'y'] 7 = ['x', '7', 'y'] := by decide

example : prepare_message ['a', '%', '%', 'S', '\n', 'b'] 3 =
    ['a', '%', '3', 'b'] := by decide

/-- Test for an octal digit character, as used by `strtol` in base 8. -/
def isOctDigit (c : Char) : Bool :=
  '0' ≤ c && c ≤ '7'

/-- Test for a hexadecimal digit character. -/
def isHexDigit (c : Char) : Bool :=
  c.isDigit || ('a' ≤ c && c ≤ 'f') || ('A' ≤ c && c ≤ 'F')

/-- Numeric value of a digit character in bases up to 16. -/
def hexDigitVal (c : Char) : Nat :=
  if c.isDigit then c.toNat - 48
  else if 'a' ≤ c && c ≤ 'f' then c.toNat - 87
  else if 'A' ≤ c && c ≤ 'F' then c.toNat - 55
  else 0

/-- Value of a digit string in the given base, most significant digit first. -/
def digitsToNat (base : Nat) (ds : List Char) : Nat :=
  ds.foldl (fun acc c => acc * base + hexDigitVal c) 0

/-- Embedding of `sscanf(s, "%i", &val)` as used by `parse_arguments`:
skips leading whitespace, accepts an optional sign, then reads an integer in
C base-prefix notation (a `0x`/`0X` prefix selects base 16, a bare leading `0`
selects base 8, otherwise base 10).  Returns `none` when no integer can be
matched (`sscanf` returning 0), otherwise the converted value; trailing
non-numeric characters are ignored, exactly as `sscanf` leaves them unread. -/
def sscanf_i (s : List Char) : Option Int :=
  let cs := s.dropWhile Char.isWhitespace
  let signBody : Bool × List Char :=
    match cs with
    | '-' :: t => (true, t)
    | '+' :: t => (false, t)
    | t => (false, t)
  let mag : Option Nat :=
    match signBody.2 with
    | '0' :: t =>
      if t.head? = some 'x' || t.head? = some 'X' then
        some (digitsToNat 16 ((t.drop 1).takeWhile isHexDigit))
      else
        some (digitsToNat 8 (t.takeWhile isOctDigit))
    | t =>
      let ds := t.takeWhile Char.isDigit
      if ds.isEmpty then none else some (digitsToNat 10 ds)
  mag.map (fun m => if signBody.1 then -(m : Int) else (m : Int))

example : sscanf_i "5".toList = some 5 := by decide
example : sscanf_i "255".toList = some 255 := by decide
example : sscanf_i "-5".toList = some (-5) := by decide
example : sscanf_i "0x10".toList = some 16 := by decide
example : sscanf_i "010".toList = some 8 := by decide
example : sscanf_i "abc".toList = none := by decide
example : sscanf_i "".toList = none := by decide
example : sscanf_i " -7".toList = some (-7) := by decide

/-- Option bit: `-s`, be completely silent. -/
def OPT_SILENT : Nat := 0x1

/-- Option bit: `-h`, show help. -/
def OPT_HELP : Nat := 0x2

/-- Option bit: `-z`, suppress the exit-info summary line. -/
def OPT_SUPPRESS_EXIT_INFO : Nat := 0x4

/-- Option bit: `-f`, fail (exit non-zero) when the timer expires with no
user interaction. -/
def OPT_FAIL_NO_USER_INTERACTION : Nat := 0x8

/-- Default countdown message template. -/
def DEFAULT_MSG_TEMPLATE : List Char :=
  "Waiting for %S seconds, press any key to exit..".toList

/-- Embedding of the `Settings` struct populated by `parse_arguments`. -/
structure Settings where
  countdown : Int
  opts : Nat
  exitcode : Nat
  template : List Char
deriving DecidableEq

/-- Initial settings, as written by `parse_arguments` before the `getopt`
loop: no options, countdown `-1` (meaning "not given"), exit code 0,
default message template. -/
def initialSettings : Settings :=
  ⟨-1, 0, 0, DEFAULT_MSG_TEMPLATE⟩

/-- Applies one argument-taking option (`-e CODE` or `-m MSG`) to the
settings, mirroring the corresponding `case` bodies of `parse_arguments`.
`-e` parses its argument with `sscanf "%i"`, rejects values outside
`[0, 255]`, stores the value and clears the `-f` bit (the C code does
`opts &= ~OPT_FAIL_NO_USER_INTERACTION` on a 32-bit unsigned field).  `-m`
rejects templates of 256 or more characters and stores the template.
Returns the error message printed to standard error on failure. -/
def applyArgOpt (st : Settings) (c : Char) (a : List Char) :
    Except (List Char) Settings :=
  if c = 'e' then
    match sscanf_i a with
    | none =>
      Except.error ("Error: -e requires an integer argument: ".toList ++ a ++ ['\n'])
    | some val =>
      if val < 0 || 255 < val then
        Except.error
          ("Error: -e requires integer argument between 0 and 255: ".toList ++ a ++ ['\n'])
      else
        Except.ok { st with exitcode := val.toNat,
                            opts := st.opts &&& 4294967287 }
  else if c = 'm' then
    if 256 ≤ a.length then
      Except.error "Error: message template too big, max size is 255 chars.".toList
    else
      Except.ok { st with template := a }
  else
    Except.error ("invalid option -- ".toList ++ [c] ++ ['\n'])

/-- Outcome of scanning the characters of one `-xyz` cluster of short
options. -/
inductive ClusterStep where
  /-- All option characters of the cluster were consumed. -/
  | ok (st : Settings) : ClusterStep
  /-- The cluster ended with an argument-taking option (`e` or `m`) whose
  argument must come from the next command-line word. -/
  | needArg (c : Char) (st : Settings) : ClusterStep
  /-- An option character was rejected; carries the diagnostic message. -/
  | fail (msg : List Char) : ClusterStep

/-- Processes the option characters of one command-line word that starts
with `-`, following `getopt(argc, argv, "shzfe:m:")` and the `switch` of
`parse_arguments`: `s`, `h`, `z` set their option bits, `f` sets its bit and
resets the exit code to 0, `e` and `m` take the rest of the cluster (or,
when the cluster ends, the next word) as their argument, and any other
character is an error (`getopt` returning `?`). -/
def parse_cluster (st : Settings) : List Char → ClusterStep
  | [] => ClusterStep.ok st
  | c :: cs =>
    if c = 's' then parse_cluster { st with opts := st.opts ||| OPT_SILENT } cs
    else if c = 'h' then parse_cluster { st with opts := st.opts ||| OPT_HELP } cs
    else if c = 'z' then
      parse_cluster { st with opts := st.opts ||| OPT_SUPPRESS_EXIT_INFO } cs
    else if c = 'f' then
      parse_cluster
        { st with opts := st.opts ||| OPT_FAIL_NO_USER_INTERACTION, exitcode := 0 } cs
    else if c = 'e' || c = 'm' then
      match cs with
      | [] => ClusterStep.needArg c st
      | _ :: _ =>
        match applyArgOpt st c cs with
        | Except.error msg => ClusterStep.fail msg
        | Except.ok st2 => ClusterStep.ok st2
    else ClusterStep.fail ("invalid option -- ".toList ++ [c] ++ ['\n'])

/-- The `getopt` option-scanning loop of `parse_arguments` over the
command-line words (the program name `argv[0]` excluded).  Scanning stops at
the first word that does not start with `-` (or at a bare `-`), which is
left in place as the positional argument, or after a literal `--`, which is
consumed.  A `-e`/`-m` at the end of a cluster takes the next word as its
argument; if no word remains, `getopt` reports a missing argument and
`parse_arguments` returns failure.  Returns the updated settings and the
remaining positional words.  Modelled in POSIX scanning mode (no argument
permutation), which is faithful for option-first command lines. -/
def parse_opts (st : Settings) :
    List (List Char) → Except (List Char) (Settings × List (List Char))
  | [] => Except.ok (st, [])
  | tok :: rest =>
    match tok with
    | ['-'] => Except.ok (st, tok :: rest)
    | ['-', '-'] => Except.ok (st, rest)
    | '-' :: c :: cs =>
      match parse_cluster st (c :: cs) with
      | ClusterStep.fail msg => Except.error msg
      | ClusterStep.ok st2 => parse_opts st2 rest
      | ClusterStep.needArg oc st2 =>
        match rest with
        | [] =>
          Except.error ("option requires an argument -- ".toList ++ [oc] ++ ['\n'])
        | a :: rest2 =>
          match applyArgOpt st2 oc a with
          | Except.error msg => Except.error msg
          | Except.ok st3 => parse_opts st3 rest2
    | _ => Except.ok (st, tok :: rest)

/-- Embedding of `parse_arguments`: runs the option loop from the initial
settings, then, if a positional word remains, parses it with `sscanf "%i"`
and rejects non-numeric or negative values, storing the result in
`countdown`.  On failure the error carries the message printed to standard
error. -/
def parse_arguments (argv : List (List Char)) : Except (List Char) Settings :=
  match parse_opts initialSettings argv with
  | Except.error msg => Except.error msg
  | Except.ok (st, rest) =>
    match rest with
    | [] => Except.ok st
    | tok :: _ =>
      match sscanf_i tok with
      | none =>
        Except.error ("Error: countdown must be a positive integer: ".toList ++ tok ++ ['\n'])
      | some val =>
        if val < 0 then
          Except.error
            ("Error: countdown must be a positive integer: ".toList ++ tok ++ ['\n'])
        else
          Except.ok { st with countdown := val }

example :
    (parse_arguments ["-e".toList, "5".toList, "3".toList]).toOption =
      some ⟨3, 0, 5, DEFAULT_MSG_TEMPLATE⟩ := by decide

example :
    (parse_arguments ["-f".toList, "-e".toList, "5".toList, "3".toList]).toOption =
      some ⟨3, 0, 5, DEFAULT_MSG_TEMPLATE⟩ := by decide

example :
    (parse_arguments ["-e".toList, "5".toList, "-f".toList, "3".toList]).toOption =
      some ⟨3, OPT_FAIL_NO_USER_INTERACTION, 0, DEFAULT_MSG_TEMPLATE⟩ := by decide

example :
    (parse_arguments ["-szf".toList, "7".toList]).toOption =
      some ⟨7, 13, 0, DEFAULT_MSG_TEMPLATE⟩ := by decide

example :
    (parse_arguments ["-x".toList, "3".toList]).isOk = false := by decide

/-- Reason the countdown loop ended. -/
inductive ExitReason where
  /-- The counter reached zero with no input. -/
  | Timeout : ExitReason
  /-- Input became available during a tick's wait and the loop broke out. -/
  | Interrupted : ExitReason
deriving DecidableEq

/-- Result of the countdown `while` loop of `main`: the final value of
`seconds_left`, how the loop ended, the number of calls made to
`wait_for_one_second_or_input`, and the bytes written to standard output
while looping. -/
structure LoopResult where
  seconds_left : Nat
  reason : ExitReason
  waits : Nat
  out : List Char
deriving DecidableEq

/-- The `"\r\033[K"` carriage-return plus erase-line control sequence the
program uses to redraw the status line in place. -/
def clearSeq : List Char := ['\r', '\x1b', '[', 'K']

/-- Embedding of the countdown `while (seconds_left > 0)` loop of `main`.
Each iteration: if not silent, render the message for the current
`seconds_left` and write it to standard output; wait up to one second for
input (`input tick` tells whether input arrived during this tick); on input
break out with `seconds_left` unchanged, otherwise decrement `seconds_left`,
write the line-clearing sequence if not silent, and re-test the loop
condition.  `tick` is the 1-indexed number of the current iteration. -/
def main_loop (silent : Bool) (template : List Char) (input : Nat → Bool) :
    Nat → Nat → LoopResult
  | _, 0 => ⟨0, ExitReason.Timeout, 0, []⟩
  | tick, m + 1 =>
    let msg : List Char := if silent then [] else prepare_message template (↑(m + 1))
    if input tick then
      ⟨m + 1, ExitReason.Interrupted, 1, msg⟩
    else
      let r := main_loop silent template input (tick + 1) m
      ⟨r.seconds_left, r.reason, r.waits + 1,
        msg ++ (if silent then [] else clearSeq) ++ r.out⟩

/-- Successive values of `seconds_left` after each decrement performed by the
countdown loop, given the input schedule (spec-side observation used to state
the loop-state invariant; the full value history of `seconds_left` is the
initial value consed in front of this list). -/
def loopTrace (input : Nat → Bool) : Nat → Nat → List Nat
  | _, 0 => []
  | tick, m + 1 =>
    if input tick then [] else m :: loopTrace input (tick + 1) m

/-- Result of one whole program run: the process exit status and the bytes
written to standard output and standard error, plus whether control reached
the countdown loop.  The help text produced by `print_usage` (which goes to
standard error) is abstracted to a placeholder, as no claim concerns its
content. -/
structure MainResult where
  exitCode : Nat
  stdout : List Char
  stderr : List Char
  loopReached : Bool
deriving DecidableEq

/-- Embedding of the body of `main` after `parse_arguments` has succeeded:
help short-circuits with status 0; a missing countdown is a configuration
error (status 1, message to standard error); otherwise `init_termio` runs,
the countdown loop executes, the exit code is overridden to 1 when
`seconds_left` ended at 0 and the `-f` bit is set, and unless silent a final
line (either a blank cleared line under `-z`, or the exit summary with the
resolved code and elapsed seconds `seconds - seconds_left`) is written to
standard output. -/
def main_after_parse (st : Settings) (input : Nat → Bool) : MainResult :=
  if st.opts &&& OPT_HELP ≠ 0 then
    ⟨0, [], "usage".toList, false⟩
  else if st.countdown < 0 then
    ⟨1, [], "Error: number of seconds to wait must be specified.\n".toList, false⟩
  else
    let seconds : Nat := st.countdown.toNat
    let silent : Bool := st.opts &&& OPT_SILENT ≠ 0
    let r := main_loop silent st.template input 1 seconds
    let exitcode : Nat :=
      if r.seconds_left = 0 ∧ st.opts &&& OPT_FAIL_NO_USER_INTERACTION ≠ 0 then 1
      else st.exitcode
    let out : List Char :=
      if silent then r.out
      else if st.opts &&& OPT_SUPPRESS_EXIT_INFO ≠ 0 then
        r.out ++ clearSeq ++ ['\n']
      else
        r.out ++ clearSeq ++ "Exit ".toList ++ sprintf_d (↑exitcode) ++
          " after ".toList ++ sprintf_d (↑(seconds - r.seconds_left)) ++
          " seconds.\n".toList
    ⟨exitcode, out, [], true⟩

/-- Embedding of `main`: parse the command line (the program name excluded);
on parse failure return status 1 with the parse error on standard error and
without reaching the loop; otherwise run the rest of `main`. -/
def waitexit_main (argv : List (List Char)) (input : Nat → Bool) : MainResult :=
  match parse_arguments argv with
  | Except.error msg => ⟨1, [], msg, false⟩
  | Except.ok st => main_after_parse st input

example :
    waitexit_main ["-s".toList, "2".toList] (fun _ => false) =
      ⟨0, [], [], true⟩ := by decide

example :
    (waitexit_main ["-f".toList, "3".toList] (fun _ => false)).exitCode = 1 := by
  decide

example :
    (waitexit_main ["-f".toList, "3".toList] (fun k => k = 2)).exitCode = 0 := by
  decide

/-- Spec-side predicate: the template contains an occurrence of the
two-character sequence `%S`. -/
def containsPctS : List Char → Bool
  | [] => false
  | c :: rest => (c = '%' && rest.head? = some 'S') || containsPctS rest

/-- Spec-side helper for the renderer contract of §4.4: replaces every
occurrence of the two-character sequence `%S`, scanning left to right, by the
replacement `d`. -/
def replacePctS : List Char → List Char → List Char
  | [], _ => []
  | '%' :: 'S' :: rest, d => d ++ replacePctS rest d
  | c :: rest, d => c :: replacePctS rest d

/-- Spec-side character filter: drops carriage-return and line-feed. -/
def stripCRLF (t : List Char) : List Char :=
  t.filter (fun c => c ≠ '\n' ∧ c ≠ '\r')

/-- Modelled from the spec (§4.4 `render`): replace each literal `%S`
sequence by the decimal textual representation of the remaining seconds and
strip embedded carriage-return/line-feed characters, recognizing no other
escape sequences.  Stated as replacement followed by stripping; the
implementation interleaves the two in a single scan. -/
def render_spec (t : List Char) (s : Int) : List Char :=
  stripCRLF (replacePctS t (sprintf_d s))

/-! Helper lemmas about the renderer. -/

theorem digitChar_ne_crlf (n : Nat) : digitChar n ≠ '\n' ∧ digitChar n ≠ '\r' := by
  unfold digitChar
  repeat' split
  all_goals exact ⟨by decide, by decide⟩

theorem natDigitsCore_ne_crlf (fuel : Nat) :
    ∀ n acc, (∀ c ∈ acc, c ≠ '\n' ∧ c ≠ '\r') →
      ∀ c ∈ natDigitsCore fuel n acc, c ≠ '\n' ∧ c ≠ '\r' := by
  induction fuel with
  | zero => intro n acc hacc; simpa [natDigitsCore] using hacc
  | succ fuel ih =>
    intro n acc hacc c hc
    rw [natDigitsCore] at hc
    split at hc
    · rcases List.mem_cons.mp hc with h | h
      · subst h; exact digitChar_ne_crlf n
      · exact hacc c h
    · refine ih (n / 10) (digitChar (n % 10) :: acc) ?_ c hc
      intro c' hc'
      rcases List.mem_cons.mp hc' with h | h
      · subst h; exact digitChar_ne_crlf (n % 10)
      · exact hacc c' h

theorem sprintf_d_ne_crlf (v : Int) :
    ∀ c ∈ sprintf_d v, c ≠ '\n' ∧ c ≠ '\r' := by
  intro c hc
  unfold sprintf_d natDigits at hc
  split at hc
  · rcases List.mem_cons.mp hc with h | h
    · subst h; exact ⟨by decide, by decide⟩
    · exact natDigitsCore_ne_crlf _ _ [] (by simp) c h
  · exact natDigitsCore_ne_crlf _ _ [] (by simp) c hc

theorem stripCRLF_sprintf_d (v : Int) : stripCRLF (sprintf_d v) = sprintf_d v := by
  apply List.filter_eq_self.mpr
  intro c hc
  have h := sprintf_d_ne_crlf v c hc
  simp [h.1, h.2]

theorem pm_cons_other (c : Char) (rest : List Char) (s : Int)
    (h1 : c ≠ '\n') (h2 : c ≠ '\r') (h3 : ¬(c = '%' ∧ rest.head? = some 'S')) :
    prepare_message (c :: rest) s = c :: prepare_message rest s := by
  rw [prepare_message.eq_def]
  split <;> simp_all

theorem replacePctS_cons_other (c : Char) (rest d : List Char)
    (h3 : ¬(c = '%' ∧ rest.head? = some 'S')) :
    replacePctS (c :: rest) d = c :: replacePctS rest d := by
  rw [replacePctS.eq_def]
  split <;> simp_all

theorem stripCRLF_cons_of_crlf (c : Char) (t : List Char)
    (h : c = '\n' ∨ c = '\r') : stripCRLF (c :: t) = stripCRLF t := by
  rcases h with h | h <;> subst h <;> simp [stripCRLF]

theorem stripCRLF_cons_other (c : Char) (t : List Char)
    (h1 : c ≠ '\n') (h2 : c ≠ '\r') : stripCRLF (c :: t) = c :: stripCRLF t := by
  simp [stripCRLF, h1, h2]

theorem prepare_message_eq_render_spec (t : List Char) (s : Int) :
    prepare_message t s = render_spec t s := by
  induction t, s using prepare_message.induct with
  | case1 s => simp [prepare_message, render_spec, replacePctS, stripCRLF]
  | case2 rest s ih =>
    rw [prepare_message, ih, render_spec, render_spec,
      replacePctS_cons_other _ _ _ (by simp), stripCRLF_cons_of_crlf _ _ (Or.inl rfl)]
  | case3 rest s ih =>
    rw [prepare_message, ih, render_spec, render_spec,
      replacePctS_cons_other _ _ _ (by simp), stripCRLF_cons_of_crlf _ _ (Or.inr rfl)]
  | case4 rest s ih =>
    rw [prepare_message, ih]
    show _ = stripCRLF (replacePctS ('%' :: 'S' :: rest) (sprintf_d s))
    rw [replacePctS, stripCRLF, List.filter_append, ← stripCRLF, ← stripCRLF,
      stripCRLF_sprintf_d, ← render_spec]
  | case5 c rest s hn hr hp ih =>
    have h3 : ¬(c = '%' ∧ rest.head? = some 'S') := by
      rintro ⟨hc, hh⟩
      rcases rest with _ | ⟨r, rs⟩
      · simp at hh
      · simp at hh
        exact hp rs hc (by rw [hh])
    rw [pm_cons_other c rest s (fun h => hn h) (fun h => hr h) h3, ih,
      render_spec, render_spec, replacePctS_cons_other _ _ _ h3,
      stripCRLF_cons_other _ _ (fun h => hn h) (fun h => hr h)]

theorem prepare_message_no_pctS (t : List Char) (s : Int)
    (h : containsPctS t = false) : prepare_message t s = stripCRLF t := by
  induction t, s using prepare_message.induct with
  | case1 s => simp [prepare_message, stripCRLF]
  | case2 rest s ih =>
    rw [prepare_message, ih (by simpa [containsPctS] using h),
      stripCRLF_cons_of_crlf _ _ (Or.inl rfl)]
  | case3 rest s ih =>
    rw [prepare_message, ih (by simpa [containsPctS] using h),
      stripCRLF_cons_of_crlf _ _ (Or.inr rfl)]
  | case4 rest s ih =>
    exfalso
    simp [containsPctS] at h
  | case5 c rest s hn hr hp ih =>
    have h3 : ¬(c = '%' ∧ rest.head? = some 'S') := by
      rintro ⟨hc, hh⟩
      rcases rest with _ | ⟨r, rs⟩
      · simp at hh
      · simp at hh
        exact hp rs hc (by rw [hh])
    have h' : containsPctS rest = false := by
      simp [containsPctS] at h
      exact h.2
    rw [pm_cons_other c rest s (fun h => hn h) (fun h => hr h) h3, ih h',
      stripCRLF_cons_other _ _ (fun h => hn h) (fun h => hr h)]

theorem prepare_message_append_pctS (t1 t2 : List Char) (s : Int) :
    prepare_message (t1 ++ '%' :: 'S' :: t2) s =
      prepare_message t1 s ++ sprintf_d s ++ prepare_message t2 s := by
  induction t1, s using prepare_message.induct with
  | case1 s => simp [prepare_message]
  | case2 rest s ih => rw [List.cons_append, prepare_message, ih, prepare_message]
  | case3 rest s ih => rw [List.cons_append, prepare_message, ih, prepare_message]
  | case4 rest s ih =>
    rw [List.cons_append, List.cons_append, prepare_message, ih, prepare_message]
    simp
  | case5 c rest s hn hr hp ih =>
    have h3 : ¬(c = '%' ∧ rest.head? = some 'S') := by
      rintro ⟨hc, hh⟩
      rcases rest with _ | ⟨r, rs⟩
      · simp at hh
      · simp at hh
        exact hp rs hc (by rw [hh])
    have h3' : ¬(c = '%' ∧ (rest ++ '%' :: 'S' :: t2).head? = some 'S') := by
      rintro ⟨hc, hh⟩
      rcases rest with _ | ⟨r, rs⟩
      · simp at hh
      · simp at hh
        exact h3 ⟨hc, by simp [hh]⟩
    rw [List.cons_append,
      pm_cons_other c _ s (fun h => hn h) (fun h => hr h) h3',
      pm_cons_other c rest s (fun h => hn h) (fun h => hr h) h3, ih]
    simp

/-! Helper lemmas about the countdown loop. -/

theorem main_loop_no_input (silent : Bool) (tmpl : List Char) (input : Nat → Bool)
    (h : ∀ k, input k = false) :
    ∀ N tick, (main_loop silent tmpl input tick N).seconds_left = 0 ∧
      (main_loop silent tmpl input tick N).reason = ExitReason.Timeout ∧
      (main_loop silent tmpl input tick N).waits = N := by
  intro N
  induction N with
  | zero => intro tick; exact ⟨rfl, rfl, rfl⟩
  | succ m ih =>
    intro tick
    have := ih (tick + 1)
    simp only [main_loop, h tick, if_false, Bool.false_eq_true]
    exact ⟨this.1, this.2.1, by rw [this.2.2]⟩

theorem main_loop_interrupt (silent : Bool) (tmpl : List Char) (input : Nat → Bool) :
    ∀ (k tick m : Nat), k < m → input (tick + k) = true →
      (∀ j, j < k → input (tick + j) = false) →
      (main_loop silent tmpl input tick m).seconds_left = m - k ∧
      (main_loop silent tmpl input tick m).reason = ExitReason.Interrupted ∧
      (main_loop silent tmpl input tick m).waits = k + 1 := by
  intro k
  induction k with
  | zero =>
    intro tick m hk ht _
    obtain ⟨m', rfl⟩ : ∃ m', m = m' + 1 := ⟨m - 1, by omega⟩
    rw [Nat.add_zero] at ht
    simp [main_loop, ht]
  | succ k ih =>
    intro tick m hk ht hf
    obtain ⟨m', rfl⟩ : ∃ m', m = m' + 1 := ⟨m - 1, by omega⟩
    have h0 : input tick = false := by simpa using hf 0 (Nat.succ_pos k)
    have := ih (tick + 1) m' (by omega)
      (by rw [show tick + 1 + k = tick + (k + 1) by omega]; exact ht)
      (fun j hj => by
        rw [show tick + 1 + j = tick + (j + 1) by omega]
        exact hf (j + 1) (by omega))
    simp only [main_loop, h0, if_false, Bool.false_eq_true]
    refine ⟨?_, this.2.1, by rw [this.2.2]⟩
    rw [this.1]
    omega

theorem main_loop_timeout_iff (silent : Bool) (tmpl : List Char) (input : Nat → Bool) :
    ∀ N tick, ((main_loop silent tmpl input tick N).reason = ExitReason.Timeout ↔
      (main_loop silent tmpl input tick N).seconds_left = 0) := by
  intro N
  induction N with
  | zero => intro tick; simp [main_loop]
  | succ m ih =>
    intro tick
    by_cases h : input tick
    · simp [main_loop, h]
    · simp only [main_loop, h, if_false, Bool.false_eq_true]
      exact ih (tick + 1)

theorem main_loop_seconds_left_le (silent : Bool) (tmpl : List Char)
    (input : Nat → Bool) :
    ∀ N tick, (main_loop silent tmpl input tick N).seconds_left ≤ N := by
  intro N
  induction N with
  | zero => intro tick; exact Nat.le_refl 0
  | succ m ih =>
    intro tick
    by_cases h : input tick
    · simp [main_loop, h]
    · simp only [main_loop, h, if_false, Bool.false_eq_true]
      exact Nat.le_trans (ih (tick + 1)) (Nat.le_succ m)

theorem main_loop_silent_out (tmpl : List Char) (input : Nat → Bool) :
    ∀ N tick, (main_loop true tmpl input tick N).out = [] := by
  intro N
  induction N with
  | zero => intro tick; rfl
  | succ m ih =>
    intro tick
    by_cases h : input tick
    · simp [main_loop, h]
    · simp only [main_loop, h, if_false, Bool.false_eq_true, if_true]
      simpa using ih (tick + 1)

theorem loopTrace_chain (input : Nat → Bool) :
    ∀ N tick, List.Chain (fun a b => a = b + 1) N (loopTrace input tick N) := by
  intro N
  induction N with
  | zero => intro tick; exact List.Chain.nil
  | succ m ih =>
    intro tick
    by_cases h : input tick
    · simp [loopTrace, h]
    · simp only [loopTrace, h, if_false, Bool.false_eq_true]
      exact List.chain_cons.mpr ⟨rfl, ih (tick + 1)⟩

theorem loopTrace_getLast (silent : Bool) (tmpl : List Char) (input : Nat → Bool) :
    ∀ N tick, (N :: loopTrace input tick N).getLast (List.cons_ne_nil _ _) =
      (main_loop silent tmpl input tick N).seconds_left := by
  intro N
  induction N with
  | zero => intro tick; rfl
  | succ m ih =>
    intro tick
    by_cases h : input tick
    · simp [loopTrace, main_loop, h]
    · have htr : loopTrace input tick (m + 1) = m :: loopTrace input (tick + 1) m := by
        simp [loopTrace, h]
      have hsl : (main_loop silent tmpl input tick (m + 1)).seconds_left =
          (main_loop silent tmpl input (tick + 1) m).seconds_left := by
        simp [main_loop, h]
      rw [htr, hsl, List.getLast_cons (List.cons_ne_nil _ _)]
      exact ih (tick + 1)

/-! Claim theorems. -/

/-- Claim C1: for every countdown value `N ≥ 0`, if no input is ever
supplied, the countdown loop performs exactly `N` timeout ticks (one wait per
tick), ends in `Done(Timeout)` with `seconds_left = 0`, and the elapsed
seconds figure `N - seconds_left` equals `N`; for `N = 0` the loop body and
the wait never execute and the result is immediately `Done(Timeout)` with
zero waits, zero elapsed seconds and no output. -/
theorem countdown_timeout_no_input (N : Nat) (silent : Bool) (tmpl : List Char)
    (input : Nat → Bool) (h : ∀ k, input k = false) :
    (main_loop silent tmpl input 1 N).seconds_left = 0 ∧
    (main_loop silent tmpl input 1 N).reason = ExitReason.Timeout ∧
    (main_loop silent tmpl input 1 N).waits = N ∧
    N - (main_loop silent tmpl input 1 N).seconds_left = N ∧
    main_loop silent tmpl input 1 0 = ⟨0, ExitReason.Timeout, 0, []⟩ := by
  have := main_loop_no_input silent tmpl input h N 1
  exact ⟨this.1, this.2.1, this.2.2, by rw [this.1]; omega, rfl⟩

/-- Witness for C1 at `N = 3` with the constantly-false input schedule. -/
theorem countdown_timeout_no_input_witness :
    (∀ k, (fun _ : Nat => false) k = false) ∧
    (main_loop false DEFAULT_MSG_TEMPLATE (fun _ => false) 1 3).seconds_left = 0 ∧
    (main_loop false DEFAULT_MSG_TEMPLATE (fun _ => false) 1 3).reason =
      ExitReason.Timeout ∧
    (main_loop false DEFAULT_MSG_TEMPLATE (fun _ => false) 1 3).waits = 3 :=
  have h := countdown_timeout_no_input 3 false DEFAULT_MSG_TEMPLATE
    (fun _ => false) (fun _ => rfl)
  ⟨fun _ => rfl, h.1, h.2.1, h.2.2.1⟩

/-- Claim C2: for `1 ≤ k ≤ N`, if input first becomes available during tick
`k` (1-indexed), the loop ends in `Done(Interrupted)` after exactly `k`
waits with `seconds_left = N - k + 1`: the break happens before that tick's
decrement. -/
theorem countdown_interrupt_at_tick (N k : Nat) (silent : Bool) (tmpl : List Char)
    (input : Nat → Bool) (h1 : 1 ≤ k) (h2 : k ≤ N)
    (ht : input k = true) (hf : ∀ j, 1 ≤ j → j < k → input j = false) :
    (main_loop silent tmpl input 1 N).seconds_left = N - k + 1 ∧
    (main_loop silent tmpl input 1 N).reason = ExitReason.Interrupted ∧
    (main_loop silent tmpl input 1 N).waits = k := by
  have := main_loop_interrupt silent tmpl input (k - 1) 1 N (by omega)
    (by rw [show 1 + (k - 1) = k by omega]; exact ht)
    (fun j hj => hf (1 + j) (by omega) (by omega))
  refine ⟨?_, this.2.1, ?_⟩
  · rw [this.1]; omega
  · rw [this.2.2]; omega

/-- Witness for C2 at `N = 3`, `k = 2`, input arriving during tick 2. -/
theorem countdown_interrupt_at_tick_witness :
    1 ≤ 2 ∧ 2 ≤ 3 ∧ (fun k : Nat => k == 2) 2 = true ∧
    (∀ j, 1 ≤ j → j < 2 → (fun k : Nat => k == 2) j = false) ∧
    (main_loop false DEFAULT_MSG_TEMPLATE (fun k => k == 2) 1 3).seconds_left = 2 ∧
    (main_loop false DEFAULT_MSG_TEMPLATE (fun k => k == 2) 1 3).reason =
      ExitReason.Interrupted ∧
    (main_loop false DEFAULT_MSG_TEMPLATE (fun k => k == 2) 1 3).waits = 2 :=
  have hf : ∀ j, 1 ≤ j → j < 2 → (fun k : Nat => k == 2) j = false := by
    intro j hj1 hj2
    have : j = 1 := by omega
    subst this
    rfl
  have h := countdown_interrupt_at_tick 3 2 false DEFAULT_MSG_TEMPLATE
    (fun k => k == 2) (by decide) (by decide) rfl hf
  ⟨by decide, by decide, rfl, hf, h.1, h.2.1, h.2.2⟩

/-- Claim C4: the renderer equals the §4.4 contract — every `%S` is replaced
by the decimal representation of the seconds value, carriage-return and
line-feed characters are stripped, all other characters pass through in
order and no other escape sequence is recognized (stated as equality with
the spec-side `render_spec`) — and the two documented examples hold. -/
theorem render_matches_spec (t : List Char) (s : Int)
    (_hs : 0 ≤ s) (_hlen : t.length ≤ 255) :
    prepare_message t s = render_spec t s ∧
    prepare_message "%S".toList 42 = "42".toList ∧
    prepare_message "x%Sy".toList 7 = "x7y".toList :=
  ⟨prepare_message_eq_render_spec t s, by decide, by decide⟩

/-- Witness for C4 at the template `"%S"` with `s = 42`. -/
theorem render_matches_spec_witness :
    (0 : Int) ≤ 42 ∧ ("%S".toList.length ≤ 255) ∧
    prepare_message "%S".toList 42 = render_spec "%S".toList 42 :=
  ⟨by decide, by decide,
    (render_matches_spec "%S".toList 42 (by decide) (by decide)).1⟩

/-- Claim C5: a template with no `%S` sequence renders independently of the
seconds value, and the output is the template with carriage-return/line-feed
characters removed and nothing else changed. -/
theorem render_no_pctS_independent (t : List Char) (s1 s2 : Int)
    (h : containsPctS t = false) :
    prepare_message t s1 = stripCRLF t ∧
    prepare_message t s1 = prepare_message t s2 := by
  have e1 := prepare_message_no_pctS t s1 h
  have e2 := prepare_message_no_pctS t s2 h
  exact ⟨e1, by rw [e1, e2]⟩

/-- Witness for C5 at the template `"ab\ncd"` with `s1 = 3`, `s2 = 99`. -/
theorem render_no_pctS_independent_witness :
    containsPctS "ab\ncd".toList = false ∧
    prepare_message "ab\ncd".toList 3 = stripCRLF "ab\ncd".toList ∧
    prepare_message "ab\ncd".toList 3 = prepare_message "ab\ncd".toList 99 :=
  ⟨by decide, render_no_pctS_independent "ab\ncd".toList 3 99 (by decide)⟩

/-- Claim C10: every occurrence of `%S` is expanded (shown by the
unconditional split over a template containing a `%S`, with the same seconds
value substituted in both remaining parts), a trailing percent is emitted
literally, and a percent followed by anything other than `S` is emitted
literally. -/
theorem render_all_occurrences_and_literal_percents
    (t1 t2 t : List Char) (c : Char) (s : Int) (hc : c ≠ 'S') :
    prepare_message (t1 ++ '%' :: 'S' :: t2) s =
      prepare_message t1 s ++ sprintf_d s ++ prepare_message t2 s ∧
    prepare_message ['%'] s = ['%'] ∧
    prepare_message ('%' :: c :: t) s = '%' :: prepare_message (c :: t) s := by
  refine ⟨prepare_message_append_pctS t1 t2 s, rfl, ?_⟩
  exact pm_cons_other '%' (c :: t) s (by decide) (by decide) (by simp [hc])

/-- Witness for C10 with both parts non-trivial and `c = 'x'`. -/
theorem render_all_occurrences_and_literal_percents_witness :
    ('x' ≠ 'S') ∧
    prepare_message ("a%Sb".toList ++ '%' :: 'S' :: "c".toList) 5 =
      prepare_message "a%Sb".toList 5 ++ sprintf_d 5 ++ prepare_message "c".toList 5 ∧
    prepare_message ['%'] 5 = ['%'] ∧
    prepare_message ('%' :: 'x' :: "yz".toList) 5 =
      '%' :: prepare_message ('x' :: "yz".toList) 5 :=
  ⟨by decide, render_all_occurrences_and_literal_percents
    "a%Sb".toList "c".toList "yz".toList 'x' 5 (by decide)⟩

/-- Claim C7: with the silent bit set (`-s`), no bytes are written to
standard output at any point of the run — no status line, no line-clearing
sequence and no summary or blank line — whatever the countdown value, the
input schedule, or how the run ends; and parsing `-s` does set exactly the
silent bit. -/
theorem silent_no_stdout (st : Settings) (input : Nat → Bool)
    (h : st.opts &&& OPT_SILENT ≠ 0) :
    (main_after_parse st input).stdout = [] ∧
    (parse_arguments [['-', 's'], ['5']]).toOption =
      some ⟨5, OPT_SILENT, 0, DEFAULT_MSG_TEMPLATE⟩ := by
  refine ⟨?_, by decide⟩
  unfold main_after_parse
  split
  · rfl
  · split
    · rfl
    · have hsil : (decide (st.opts &&& OPT_SILENT ≠ 0)) = true := by
        simpa using h
      simp [hsil, main_loop_silent_out]

/-- Witness for C7 at a silent two-second run with no input. -/
theorem silent_no_stdout_witness :
    ((⟨2, OPT_SILENT, 0, DEFAULT_MSG_TEMPLATE⟩ : Settings).opts &&& OPT_SILENT ≠ 0) ∧
    (main_after_parse ⟨2, OPT_SILENT, 0, DEFAULT_MSG_TEMPLATE⟩
      (fun _ => false)).stdout = [] :=
  ⟨by decide, (silent_no_stdout ⟨2, OPT_SILENT, 0, DEFAULT_MSG_TEMPLATE⟩
    (fun _ => false) (by decide)).1⟩

/-- Claim C3 counterexample: on the command line `-e 5 -f 3` (an explicit
`-e CODE` with `-f` also given, `-f` last), a run with no input exits with
status 1 and an interrupted run exits with status 0 — not with the explicit
code 5 as the claim requires whenever `-e CODE` is given. -/
theorem exit_code_e_then_f_counterexample :
    (waitexit_main [['-', 'e'], ['5'], ['-', 'f'], ['3']]
      (fun _ => false)).exitCode = 1 ∧
    (waitexit_main [['-', 'e'], ['5'], ['-', 'f'], ['3']]
      (fun k => k == 1)).exitCode = 0 := by
  exact ⟨by decide, by decide⟩

/-- Claim C3 (amended): with the fail-on-no-interaction bit set and the run
ending in `Done(Timeout)`, the exit status is 1; a run ending in
`Done(Interrupted)` exits with the configured code; with the fail bit clear
the configured code is always used.  At parse level the flags interact
last-wins: `-f -e 5` leaves code 5 with the fail bit cleared (so the
override never applies and the process exits 5), while `-e 5 -f` leaves
code 0 with the fail bit set (the later `-f` resets the explicit code). -/
theorem exit_code_resolution (st : Settings) (input : Nat → Bool)
    (hc : 0 ≤ st.countdown) (hh : st.opts &&& OPT_HELP = 0) :
    ((st.opts &&& OPT_FAIL_NO_USER_INTERACTION ≠ 0 →
        (main_loop (decide (st.opts &&& OPT_SILENT ≠ 0)) st.template input 1
            st.countdown.toNat).reason = ExitReason.Timeout →
        (main_after_parse st input).exitCode = 1) ∧
     ((main_loop (decide (st.opts &&& OPT_SILENT ≠ 0)) st.template input 1
          st.countdown.toNat).reason = ExitReason.Interrupted →
        (main_after_parse st input).exitCode = st.exitcode) ∧
     (st.opts &&& OPT_FAIL_NO_USER_INTERACTION = 0 →
        (main_after_parse st input).exitCode = st.exitcode)) ∧
    (parse_arguments [['-', 'f'], ['-', 'e'], ['5'], ['3']]).toOption =
      some ⟨3, 0, 5, DEFAULT_MSG_TEMPLATE⟩ ∧
    (parse_arguments [['-', 'e'], ['5'], ['-', 'f'], ['3']]).toOption =
      some ⟨3, OPT_FAIL_NO_USER_INTERACTION, 0, DEFAULT_MSG_TEMPLATE⟩ := by
  have hex : (main_after_parse st input).exitCode =
      if (main_loop (decide (st.opts &&& OPT_SILENT ≠ 0)) st.template input 1
            st.countdown.toNat).seconds_left = 0 ∧
          st.opts &&& OPT_FAIL_NO_USER_INTERACTION ≠ 0 then 1 else st.exitcode := by
    unfold main_after_parse
    rw [if_neg (not_not_intro hh), if_neg (by omega)]
  refine ⟨⟨?_, ?_, ?_⟩, by decide, by decide⟩
  · intro hfail htime
    rw [hex, if_pos ⟨(main_loop_timeout_iff _ _ _ _ _).mp htime, hfail⟩]
  · intro hint
    have hne : (main_loop (decide (st.opts &&& OPT_SILENT ≠ 0)) st.template input 1
        st.countdown.toNat).seconds_left ≠ 0 := by
      intro h0
      have ht := (main_loop_timeout_iff (decide (st.opts &&& OPT_SILENT ≠ 0))
        st.template input st.countdown.toNat 1).mpr h0
      rw [hint] at ht
      exact ExitReason.noConfusion ht
    rw [hex, if_neg (fun hand => hne hand.1)]
  · intro hfail
    rw [hex, if_neg (fun hand => hand.2 hfail)]

/-- Witness for C3's amended theorem: settings with only the fail bit set,
countdown 3, no input — the run times out and exits 1. -/
theorem exit_code_resolution_witness :
    (0 : Int) ≤ (⟨3, 8, 0, DEFAULT_MSG_TEMPLATE⟩ : Settings).countdown ∧
    (⟨3, 8, 0, DEFAULT_MSG_TEMPLATE⟩ : Settings).opts &&& OPT_HELP = 0 ∧
    ((⟨3, 8, 0, DEFAULT_MSG_TEMPLATE⟩ : Settings).opts &&&
      OPT_FAIL_NO_USER_INTERACTION ≠ 0) ∧
    (main_loop (decide ((⟨3, 8, 0, DEFAULT_MSG_TEMPLATE⟩ : Settings).opts &&&
          OPT_SILENT ≠ 0)) DEFAULT_MSG_TEMPLATE (fun _ => false) 1
        (3 : Int).toNat).reason = ExitReason.Timeout ∧
    (main_after_parse ⟨3, 8, 0, DEFAULT_MSG_TEMPLATE⟩ (fun _ => false)).exitCode = 1 :=
  have h := (exit_code_resolution ⟨3, 8, 0, DEFAULT_MSG_TEMPLATE⟩ (fun _ => false)
    (by decide) (by decide)).1.1
  ⟨by decide, by decide, by decide, by decide, h (by decide) (by decide)⟩

/-- Claim C9: loop-state invariant — `seconds_left` stays between 0 and
`countdown_seconds` (it is a natural number bounded by the countdown), the
successive values it takes form a chain decreasing by exactly 1 per timeout
tick whose last element is the loop's final value, and that final value is
consumed to compute both the resolved exit code and the elapsed-seconds
figure `countdown_seconds - seconds_left` printed in the summary line. -/
theorem loop_state_invariant (st : Settings) (input : Nat → Bool)
    (hc : 0 ≤ st.countdown) (hh : st.opts &&& OPT_HELP = 0) :
    (main_loop (decide (st.opts &&& OPT_SILENT ≠ 0)) st.template input 1
        st.countdown.toNat).seconds_left ≤ st.countdown.toNat ∧
    List.Chain (fun a b => a = b + 1) st.countdown.toNat
      (loopTrace input 1 st.countdown.toNat) ∧
    (st.countdown.toNat :: loopTrace input 1 st.countdown.toNat).getLast
        (List.cons_ne_nil _ _) =
      (main_loop (decide (st.opts &&& OPT_SILENT ≠ 0)) st.template input 1
        st.countdown.toNat).seconds_left ∧
    (main_after_parse st input).exitCode =
      (if (main_loop (decide (st.opts &&& OPT_SILENT ≠ 0)) st.template input 1
            st.countdown.toNat).seconds_left = 0 ∧
          st.opts &&& OPT_FAIL_NO_USER_INTERACTION ≠ 0 then 1 else st.exitcode) ∧
    (st.opts &&& OPT_SILENT = 0 → st.opts &&& OPT_SUPPRESS_EXIT_INFO = 0 →
      (main_after_parse st input).stdout =
        (main_loop (decide (st.opts &&& OPT_SILENT ≠ 0)) st.template input 1
            st.countdown.toNat).out ++ clearSeq ++ "Exit ".toList ++
          sprintf_d (↑(main_after_parse st input).exitCode) ++ " after ".toList ++
          sprintf_d (↑(st.countdown.toNat -
            (main_loop (decide (st.opts &&& OPT_SILENT ≠ 0)) st.template input 1
              st.countdown.toNat).seconds_left)) ++ " seconds.\n".toList) := by
  refine ⟨main_loop_seconds_left_le _ _ _ _ _, loopTrace_chain _ _ _,
    loopTrace_getLast _ _ _ _ _, ?_, ?_⟩
  · unfold main_after_parse
    rw [if_neg (not_not_intro hh), if_neg (by omega)]
  · intro hs hz
    have hsilF : (decide (st.opts &&& OPT_SILENT ≠ 0)) = false := by simp [hs]
    have hzF : ¬ st.opts &&& OPT_SUPPRESS_EXIT_INFO ≠ 0 := not_not_intro hz
    unfold main_after_parse
    rw [if_neg (not_not_intro hh), if_neg (by omega)]
    simp only [hsilF, Bool.false_eq_true, if_false, if_neg hzF]

/-- Witness for C9 at a non-silent countdown of 2 interrupted at tick 2. -/
theorem loop_state_invariant_witness :
    (0 : Int) ≤ (⟨2, 0, 0, DEFAULT_MSG_TEMPLATE⟩ : Settings).countdown ∧
    (⟨2, 0, 0, DEFAULT_MSG_TEMPLATE⟩ : Settings).opts &&& OPT_HELP = 0 ∧
    (main_loop (decide ((⟨2, 0, 0, DEFAULT_MSG_TEMPLATE⟩ : Settings).opts &&&
          OPT_SILENT ≠ 0)) (⟨2, 0, 0, DEFAULT_MSG_TEMPLATE⟩ : Settings).template
        (fun k : Nat => k == 2) 1
        (⟨2, 0, 0, DEFAULT_MSG_TEMPLATE⟩ : Settings).countdown.toNat).seconds_left ≤
      (⟨2, 0, 0, DEFAULT_MSG_TEMPLATE⟩ : Settings).countdown.toNat :=
  ⟨by decide, by decide,
    (loop_state_invariant ⟨2, 0, 0, DEFAULT_MSG_TEMPLATE⟩ (fun k => k == 2)
      (by decide) (by decide)).1⟩

/-! Helper lemmas about configuration errors. -/

/-- A run that failed configuration: exit status 1, nothing on standard
output, a diagnostic on standard error, and the countdown loop never
reached. -/
def configErrorResult (r : MainResult) : Prop :=
  r.exitCode = 1 ∧ r.stdout = [] ∧ r.stderr ≠ [] ∧ r.loopReached = false

theorem append_singleton_ne_nil (l : List Char) (c : Char) : l ++ [c] ≠ [] := by
  simp

theorem config_error_of_parse_error (argv : List (List Char)) (input : Nat → Bool)
    (msg : List Char) (hmsg : msg ≠ [])
    (h : parse_arguments argv = Except.error msg) :
    configErrorResult (waitexit_main argv input) := by
  unfold waitexit_main
  rw [h]
  exact ⟨rfl, rfl, hmsg, rfl⟩

theorem parse_arguments_opts_error (argv : List (List Char)) (msg : List Char)
    (h : parse_opts initialSettings argv = Except.error msg) :
    parse_arguments argv = Except.error msg := by
  unfold parse_arguments
  rw [h]

theorem applyArgOpt_e_malformed (st : Settings) (a : List Char)
    (h : sscanf_i a = none) :
    applyArgOpt st 'e' a =
      Except.error ("Error: -e requires an integer argument: ".toList ++ a ++ ['\n']) := by
  unfold applyArgOpt
  rw [if_pos rfl, h]

theorem applyArgOpt_e_range (st : Settings) (a : List Char) (v : Int)
    (h : sscanf_i a = some v) (hr : v < 0 ∨ 255 < v) :
    applyArgOpt st 'e' a =
      Except.error
        ("Error: -e requires integer argument between 0 and 255: ".toList ++ a ++ ['\n']) := by
  unfold applyArgOpt
  rw [if_pos rfl, h]
  have hb : (v < 0 || 255 < v) = true := by
    rcases hr with h' | h' <;> simp [h']
  simp [hb]

theorem applyArgOpt_m_too_long (st : Settings) (a : List Char)
    (h : 256 ≤ a.length) :
    applyArgOpt st 'm' a =
      Except.error "Error: message template too big, max size is 255 chars.".toList := by
  unfold applyArgOpt
  rw [if_neg (by decide), if_pos rfl, if_pos h]

theorem parse_opts_e_arg (a : List Char) (msg : List Char)
    (h : applyArgOpt initialSettings 'e' a = Except.error msg) :
    parse_opts initialSettings [['-', 'e'], a, ['3']] = Except.error msg := by
  have hstep : parse_opts initialSettings [['-', 'e'], a, ['3']] =
      (match applyArgOpt initialSettings 'e' a with
       | Except.error m => Except.error m
       | Except.ok st3 => parse_opts st3 [['3']]) := rfl
  rw [hstep, h]

theorem parse_opts_m_arg (a : List Char) (msg : List Char)
    (h : applyArgOpt initialSettings 'm' a = Except.error msg) :
    parse_opts initialSettings [['-', 'm'], a, ['3']] = Except.error msg := by
  have hstep : parse_opts initialSettings [['-', 'm'], a, ['3']] =
      (match applyArgOpt initialSettings 'm' a with
       | Except.error m => Except.error m
       | Except.ok st3 => parse_opts st3 [['3']]) := rfl
  rw [hstep, h]

theorem parse_opts_unknown_flag (c : Char)
    (hs : c ≠ 's') (hh : c ≠ 'h') (hz : c ≠ 'z') (hf : c ≠ 'f')
    (he : c ≠ 'e') (hm : c ≠ 'm') (hd : c ≠ '-') :
    parse_opts initialSettings [['-', c], ['3']] =
      Except.error ("invalid option -- ".toList ++ [c] ++ ['\n']) := by
  have hcl : parse_cluster initialSettings [c] =
      ClusterStep.fail ("invalid option -- ".toList ++ [c] ++ ['\n']) := by
    unfold parse_cluster
    rw [if_neg hs, if_neg hh, if_neg hz, if_neg hf, if_neg (by simp [he, hm])]
  rw [parse_opts.eq_def]
  split
  · simp_all
  · rename_i rest0 tok rest heq
    injection heq with htok hrest
    subst htok
    subst hrest
    split
    · simp_all
    · simp_all
    · rename_i c' cs hne heq
      obtain ⟨rfl, rfl⟩ : c' = c ∧ cs = [] := by
        injection heq with h1 h2
        injection h2 with h3 h4
        exact ⟨h3.symm, h4.symm⟩
      rw [hcl]
    · rename_i hne1 hne2 hne3
      exact absurd rfl (hne3 c [])

theorem parse_opts_positional (a : List Char) (h : a.head? ≠ some '-') :
    parse_opts initialSettings [a] = Except.ok (initialSettings, [a]) := by
  rw [parse_opts.eq_def]
  split
  · simp_all
  · rename_i rest0 tok rest heq
    injection heq with htok hrest
    subst htok
    subst hrest
    split
    · simp_all
    · simp_all
    · simp_all
    · rfl

theorem parse_arguments_positional_error (a : List Char) (h : a.head? ≠ some '-')
    (hbad : sscanf_i a = none ∨ ∃ v, sscanf_i a = some v ∧ v < 0) :
    parse_arguments [a] =
      Except.error ("Error: countdown must be a positive integer: ".toList ++ a ++ ['\n']) := by
  have hred : parse_arguments [a] =
      (match sscanf_i a with
       | none =>
         Except.error ("Error: countdown must be a positive integer: ".toList ++ a ++ ['\n'])
       | some val =>
         if val < 0 then
           Except.error ("Error: countdown must be a positive integer: ".toList ++ a ++ ['\n'])
         else Except.ok { initialSettings with countdown := val }) := by
    unfold parse_arguments
    rw [parse_opts_positional a h]
  rw [hred]
  rcases hbad with hb | ⟨v, hb, hv⟩
  · rw [hb]
  · rw [hb]
    show (if v < 0 then
        Except.error ("Error: countdown must be a positive integer: ".toList ++ a ++ ['\n'])
      else Except.ok { initialSettings with countdown := v }) = _
    rw [if_pos hv]

/-- Claim C6: every invalid configuration — a malformed `-e` argument, an
out-of-range `-e` argument, a `-m` template longer than 255 characters, an
unknown flag, an absent positional countdown, or a malformed or negative
positional countdown — is detected before the loop starts: the run exits
with status 1, writes an error message to standard error and nothing to
standard output, and the countdown loop is never reached. -/
theorem config_errors_reject :
    (∀ (a : List Char) (input : Nat → Bool), sscanf_i a = none →
      configErrorResult (waitexit_main [['-', 'e'], a, ['3']] input)) ∧
    (∀ (a : List Char) (v : Int) (input : Nat → Bool),
      sscanf_i a = some v → v < 0 ∨ 255 < v →
      configErrorResult (waitexit_main [['-', 'e'], a, ['3']] input)) ∧
    (∀ (a : List Char) (input : Nat → Bool), 256 ≤ a.length →
      configErrorResult (waitexit_main [['-', 'm'], a, ['3']] input)) ∧
    (∀ (c : Char) (input : Nat → Bool),
      c ∉ (['s', 'h', 'z', 'f', 'e', 'm', '-'] : List Char) →
      configErrorResult (waitexit_main [['-', c], ['3']] input)) ∧
    (∀ input : Nat → Bool, configErrorResult (waitexit_main [['-', 'f']] input)) ∧
    (∀ (a : List Char) (input : Nat → Bool), a.head? ≠ some '-' →
      (sscanf_i a = none ∨ ∃ v, sscanf_i a = some v ∧ v < 0) →
      configErrorResult (waitexit_main [a] input)) := by
  refine ⟨?_, ?_, ?_, ?_, ?_, ?_⟩
  · intro a input h
    exact config_error_of_parse_error _ input _ (append_singleton_ne_nil _ _)
      (parse_arguments_opts_error _ _
        (parse_opts_e_arg a _ (applyArgOpt_e_malformed initialSettings a h)))
  · intro a v input h hr
    exact config_error_of_parse_error _ input _ (append_singleton_ne_nil _ _)
      (parse_arguments_opts_error _ _
        (parse_opts_e_arg a _ (applyArgOpt_e_range initialSettings a v h hr)))
  · intro a input h
    exact config_error_of_parse_error _ input _ (by decide)
      (parse_arguments_opts_error _ _
        (parse_opts_m_arg a _ (applyArgOpt_m_too_long initialSettings a h)))
  · intro c input hc
    simp only [List.mem_cons, List.not_mem_nil, or_false, not_or] at hc
    obtain ⟨hs, hh, hz, hf, he, hm, hd⟩ := hc
    exact config_error_of_parse_error _ input _ (append_singleton_ne_nil _ _)
      (parse_arguments_opts_error _ _
        (parse_opts_unknown_flag c hs hh hz hf he hm hd))
  · intro input
    refine ⟨rfl, rfl, ?_, rfl⟩
    show ("Error: number of seconds to wait must be specified.\n".toList : List Char) ≠ []
    decide
  · intro a input h hbad
    exact config_error_of_parse_error _ input _ (append_singleton_ne_nil _ _)
      (parse_arguments_positional_error a h hbad)

/-- Witness for C6: one concrete instance of each invalid-configuration
family. -/
theorem config_errors_reject_witness :
    (sscanf_i "abc".toList = none ∧
      configErrorResult (waitexit_main [['-', 'e'], "abc".toList, ['3']]
        (fun _ => false))) ∧
    (sscanf_i "300".toList = some 300 ∧ ((300 : Int) < 0 ∨ 255 < (300 : Int)) ∧
      configErrorResult (waitexit_main [['-', 'e'], "300".toList, ['3']]
        (fun _ => false))) ∧
    (256 ≤ (List.replicate 256 'a').length ∧
      configErrorResult (waitexit_main [['-', 'm'], List.replicate 256 'a', ['3']]
        (fun _ => false))) ∧
    (('x' ∉ (['s', 'h', 'z', 'f', 'e', 'm', '-'] : List Char)) ∧
      configErrorResult (waitexit_main [['-', 'x'], ['3']] (fun _ => false))) ∧
    configErrorResult (waitexit_main [['-', 'f']] (fun _ => false)) ∧
    (("x9".toList.head? ≠ some '-') ∧ sscanf_i "x9".toList = none ∧
      configErrorResult (waitexit_main ["x9".toList] (fun _ => false))) :=
  ⟨⟨by decide, config_errors_reject.1 "abc".toList (fun _ => false) (by decide)⟩,
   ⟨by decide, by decide,
     config_errors_reject.2.1 "300".toList 300 (fun _ => false) (by decide)
       (by decide)⟩,
   ⟨le_of_eq (List.length_replicate 256 'a').symm,
     config_errors_reject.2.2.1 (List.replicate 256 'a') (fun _ => false)
       (le_of_eq (List.length_replicate 256 'a').symm)⟩,
   ⟨by decide, config_errors_reject.2.2.2.1 'x' (fun _ => false) (by decide)⟩,
   config_errors_reject.2.2.2.2.1 (fun _ => false),
   ⟨by decide, by decide,
     config_errors_reject.2.2.2.2.2 "x9".toList (fun _ => false) (by decide)
       (Or.inl (by decide))⟩⟩

end Waitexit
